import Mathlib

/-!
Shallow embedding of the `CountdownTimer` state machine from `timer_app.py`.
Timestamps and durations are modelled as integers on an abstract wall-clock
axis (the program's `datetime`/`timedelta` values, at one-second granularity,
which is the granularity of every duration the program constructs); progress
fractions are modelled as rationals.  Every operation that reads
`datetime.now()` in the source takes the current time as an explicit
argument.
-/

structure CountdownTimer where
  duration : ℤ
  start_time : Option ℤ
  end_time : Option ℤ
  paused : Bool
  pause_time : Option ℤ
  finished : Bool
  deriving DecidableEq, Repr

/-- `CountdownTimer.__init__(duration_s)`. -/
def CountdownTimer.init (duration_s : ℤ) : CountdownTimer :=
  { duration := duration_s
    start_time := none
    end_time := none
    paused := true
    pause_time := none
    finished := false }

/-- `CountdownTimer.reset`. -/
def CountdownTimer.reset (t : CountdownTimer) : CountdownTimer :=
  { t with paused := true, pause_time := none, start_time := none,
           end_time := none, finished := false }

/-- `CountdownTimer.set_duration`. -/
def CountdownTimer.set_duration (t : CountdownTimer) (seconds : ℤ) : CountdownTimer :=
  ({ t with duration := max 0 seconds }).reset

/-- `CountdownTimer.start`; `now` is the value of `datetime.now()`. -/
def CountdownTimer.start (t : CountdownTimer) (now : ℤ) : CountdownTimer :=
  { t with start_time := some now
           end_time := some (now + t.duration)
           paused := false
           pause_time := none
           finished := false }

/-- `CountdownTimer.pause`; `now` is the value of `datetime.now()`. -/
def CountdownTimer.pause (t : CountdownTimer) (now : ℤ) : CountdownTimer :=
  if t.start_time.isSome && !t.paused then
    { t with paused := true, pause_time := some now }
  else t

/-- `CountdownTimer.resume`; `now` is the value of `datetime.now()`. -/
def CountdownTimer.resume (t : CountdownTimer) (now : ℤ) : CountdownTimer :=
  if t.start_time.isSome && t.paused then
    let t' :=
      match t.pause_time, t.end_time, t.start_time with
      | some pt, some et, some st =>
          let paused_delta := now - pt
          { t with start_time := some (st + paused_delta)
                   end_time := some (et + paused_delta) }
      | _, _, _ => t
    { t' with paused := false, pause_time := none }
  else t

/-- `CountdownTimer.add_time`. -/
def CountdownTimer.add_time (t : CountdownTimer) (seconds : ℤ) : CountdownTimer :=
  if seconds ≤ 0 then t
  else
    let t' := { t with finished := false }
    if t'.start_time.isSome && t'.end_time.isSome then
      { t' with end_time := t'.end_time.map (fun et => et + seconds) }
    else
      { t' with duration := t'.duration + seconds }

/-- `CountdownTimer.is_running`. -/
def CountdownTimer.is_running (t : CountdownTimer) : Bool :=
  t.start_time.isSome && !t.paused && !t.finished

/-- `CountdownTimer.has_finished`. -/
def CountdownTimer.has_finished (t : CountdownTimer) : Bool :=
  t.finished

/-- The dict returned by `CountdownTimer._compute_state`. -/
structure TimerSnapshot where
  remaining : ℤ
  progress : ℚ
  total : ℤ
  now : ℤ
  end_ : ℤ
  deriving DecidableEq, Repr

/-- `CountdownTimer._compute_state(reference)`: returns the snapshot dict and
the (possibly mutated) timer state. -/
def CountdownTimer.compute_state (t : CountdownTimer) (reference : ℤ) :
    TimerSnapshot × CountdownTimer :=
  match t.start_time, t.end_time with
  | some st, some et =>
      let effective_now :=
        match t.pause_time with
        | some pt => if t.paused then pt else reference
        | none => reference
      let remaining0 := et - effective_now
      let total := et - st
      let finished' := if remaining0 ≤ 0 then true else t.finished
      let paused' := if remaining0 ≤ 0 then true else t.paused
      let remaining := if remaining0 ≤ 0 then 0 else remaining0
      let elapsed := total - remaining
      let total_seconds : ℚ := max (total : ℚ) 1
      let progress := min (max ((elapsed : ℚ) / total_seconds) 0) 1
      ({ remaining := remaining
         progress := progress
         total := total
         now := effective_now
         end_ := et },
       { t with finished := finished', paused := paused' })
  | _, _ =>
      let total_seconds := max t.duration 0
      ({ remaining := total_seconds
         progress := 0
         total := total_seconds
         now := reference
         end_ := reference + total_seconds }, t)

/-- The public operations of the timer, each carrying the wall-clock instant
at which it is invoked where the source reads `datetime.now()`. -/
inductive TimerOp where
  | setDuration (seconds : ℤ)
  | startOp (now : ℤ)
  | pauseOp (now : ℤ)
  | resumeOp (now : ℤ)
  | resetOp
  | addTime (seconds : ℤ)
  | evaluate (now : ℤ)
  deriving DecidableEq, Repr

/-- State transition of a single operation (for `evaluate` the new state
returned by `_compute_state`). -/
def TimerOp.apply (op : TimerOp) (t : CountdownTimer) : CountdownTimer :=
  match op with
  | .setDuration s => t.set_duration s
  | .startOp now => t.start now
  | .pauseOp now => t.pause now
  | .resumeOp now => t.resume now
  | .resetOp => t.reset
  | .addTime s => t.add_time s
  | .evaluate now => (t.compute_state now).2

/-- Run a list of operations from a given state. -/
def runOps (t : CountdownTimer) : List TimerOp → CountdownTimer
  | [] => t
  | op :: ops => runOps (op.apply t) ops

/-- Snapshots produced by a sequence of consecutive `evaluate` calls at the
given query times, threading the state through. -/
def evalSnapshots (t : CountdownTimer) : List ℤ → List TimerSnapshot
  | [] => []
  | now :: rest =>
      let r := t.compute_state now
      r.1 :: evalSnapshots r.2 rest

/-!
## Theorems
-/

/-- C6: for every integer `seconds`, `set_duration seconds` sets the
configured duration to `max 0 seconds` and performs a full reset: start,
end and pause timestamps cleared, `finished` cleared, `paused` set. -/
theorem C6_set_duration_resets (t : CountdownTimer) (seconds : ℤ) :
    t.set_duration seconds =
      { duration := max 0 seconds
        start_time := none
        end_time := none
        paused := true
        pause_time := none
        finished := false } := rfl

/-- C5: for every timer state and every query time, the progress value of
the snapshot lies in `[0, 1]`, and it equals the clamped quotient of elapsed
time by the guarded denominator `max total 1` (defined even when the total
is zero). -/
theorem C5_progress_in_unit_interval (t : CountdownTimer) (q : ℤ) :
    0 ≤ ((t.compute_state q).1).progress ∧
    ((t.compute_state q).1).progress ≤ 1 ∧
    ((t.compute_state q).1).progress =
      min (max (((((t.compute_state q).1).total - ((t.compute_state q).1).remaining : ℤ) : ℚ) /
        max ((((t.compute_state q).1).total : ℤ) : ℚ) 1) 0) 1 := by
  obtain ⟨d, st, et, p, pt, f⟩ := t
  cases st <;> cases et <;>
    simp [CountdownTimer.compute_state, le_max_right, le_min_iff, min_le_right,
      le_max_iff, zero_le_one]

/-- C8: `pause` on a never-started or already-paused timer and `resume` on a
never-started or non-paused timer leave the state unchanged, and both
operations are idempotent: a second consecutive `pause` (resp. `resume`) has
no further effect. -/
theorem C8_pause_resume_noop_idempotent (t : CountdownTimer) (t1 t2 : ℤ) :
    (t.start_time = none ∨ t.paused = true → t.pause t1 = t) ∧
    (t.start_time = none ∨ t.paused = false → t.resume t1 = t) ∧
    (t.pause t1).pause t2 = t.pause t1 ∧
    (t.resume t1).resume t2 = t.resume t1 := by
  obtain ⟨d, st, et, p, pt, f⟩ := t
  cases st <;> cases et <;> cases pt <;> cases p <;>
    simp [CountdownTimer.pause, CountdownTimer.resume]

theorem C8_witness :
    (CountdownTimer.init 3).pause 1 = CountdownTimer.init 3 :=
  (C8_pause_resume_noop_idempotent (CountdownTimer.init 3) 1 2).1 (Or.inl rfl)

/-- C1 as stated is false: with configured duration 5, `start` at 0,
`pause` at 0+10 (a = 10), `resume` at 0+10+0 (b = 0), the snapshot's
remaining is the clamped value 0, not `configuredDuration - a = -5`. -/
theorem C1_counterexample :
    ((((((CountdownTimer.init 0).set_duration 5).start 0).pause 10).resume
        10).compute_state 10).1.remaining = 0 ∧ (0 : ℤ) ≠ 5 - 10 := by decide

/-- C1 amended: for non-negative duration `d` and non-negative `a`, `b`,
the sequence `start T0; pause (T0+a); resume (T0+a+b); evaluate (T0+a+b)`
yields remaining `max (d - a) 0` (independent of `b`, but clamped at zero),
and `resume` shifts both the start and end timestamps forward by exactly
the paused interval `b`. -/
theorem C1_pause_resume_drift (T0 d a b : ℤ) (hd : 0 ≤ d) (ha : 0 ≤ a)
    (hb : 0 ≤ b) (t2 : CountdownTimer)
    (ht : t2 = ((((CountdownTimer.init 0).set_duration d).start T0).pause
      (T0 + a)).resume (T0 + a + b)) :
    t2.start_time = some (T0 + b) ∧ t2.end_time = some (T0 + d + b) ∧
    (t2.compute_state (T0 + a + b)).1.remaining = max (d - a) 0 := by
  subst ht
  have hdd : max 0 d = d := max_eq_right hd
  simp only [CountdownTimer.init, CountdownTimer.set_duration,
    CountdownTimer.reset, CountdownTimer.start, CountdownTimer.pause,
    CountdownTimer.resume, CountdownTimer.compute_state, hdd]
  norm_num
  split <;> omega

theorem C1_witness :
    ((((((CountdownTimer.init 0).set_duration 5).start 0).pause
        (0 + 2)).resume (0 + 2 + 7)).start_time = some (0 + 7)) ∧
    ((((((CountdownTimer.init 0).set_duration 5).start 0).pause
        (0 + 2)).resume (0 + 2 + 7)).end_time = some (0 + 5 + 7)) ∧
    (((((((CountdownTimer.init 0).set_duration 5).start 0).pause
        (0 + 2)).resume (0 + 2 + 7)).compute_state (0 + 2 + 7)).1.remaining
      = max (5 - 2) 0) :=
  C1_pause_resume_drift 0 5 2 7 (by decide) (by decide) (by decide) _ rfl

/-- C2 as stated is false: duration 5, `start` at 0, `evaluate` at 10 enters
the Done state (with no pause timestamp), `add_time 100` moves the deadline
to 105; the later query times 20 < 30 are both before the new deadline, yet
the two evaluations report remaining 85 and 75 — the remaining is not frozen
while `paused` is still true. -/
theorem C2_counterexample :
    (((((((CountdownTimer.init 0).set_duration 5).start 0).compute_state
        10).2).add_time 100).compute_state 20).1.remaining = 85 ∧
    ((((((((CountdownTimer.init 0).set_duration 5).start 0).compute_state
        10).2).add_time 100).compute_state 20).2.compute_state
        30).1.remaining = 75 ∧
    (85 : ℤ) ≠ 75 := by decide

/-- C2 amended: calling `add_time s` (`s > 0`) on a Done timer that was
never paused (`pause_time` absent) clears `finished` and leaves `paused`
true, but the timer is not frozen: for query times `t1 ≤ t2` both at or
before the new deadline, the reported remaining decreases by exactly
`t2 - t1`, i.e. the timer visibly counts down again despite `paused` being
true. -/
theorem C2_addTime_done_counts_down (d st et s t1 t2 : ℤ) (hspos : 0 < s)
    (h12 : t1 ≤ t2) (h2 : t2 ≤ et + s) :
    ((CountdownTimer.mk d (some st) (some et) true none true).add_time
      s).finished = false ∧
    ((CountdownTimer.mk d (some st) (some et) true none true).add_time
      s).paused = true ∧
    (((CountdownTimer.mk d (some st) (some et) true none true).add_time
        s).compute_state t1).1.remaining -
      (((CountdownTimer.mk d (some st) (some et) true none true).add_time
        s).compute_state t2).1.remaining = t2 - t1 := by
  have hns : ¬ s ≤ 0 := by omega
  simp only [CountdownTimer.add_time, if_neg hns, CountdownTimer.compute_state]
  norm_num
  split <;> split <;> omega

theorem C2_witness :
    ((CountdownTimer.mk 5 (some 0) (some 5) true none true).add_time
      100).finished = false ∧
    ((CountdownTimer.mk 5 (some 0) (some 5) true none true).add_time
      100).paused = true ∧
    (((CountdownTimer.mk 5 (some 0) (some 5) true none true).add_time
        100).compute_state 20).1.remaining -
      (((CountdownTimer.mk 5 (some 0) (some 5) true none true).add_time
        100).compute_state 30).1.remaining = 30 - 20 :=
  C2_addTime_done_counts_down 5 0 5 100 20 30 (by decide) (by decide)
    (by decide)

/-- C3 as stated is false: duration 5, `start` at 0, `pause` at 10 (after
the deadline), then `evaluate` at 10 reaches a state with `finished` true in
which `pause_time` is still present (`some 10`). -/
theorem C3_counterexample :
    (((((CountdownTimer.init 0).set_duration 5).start 0).pause
        10).compute_state 10).2.finished = true ∧
    (((((CountdownTimer.init 0).set_duration 5).start 0).pause
        10).compute_state 10).2.pause_time = some 10 := by decide

/-- C3 amended: `finished` becomes true only via an `evaluate` call, and any
such call that newly sets `finished` reports a clamped remaining of 0 and
sets `paused` to true at that moment; no other operation ever sets
`finished` (the mutators either clear it or leave it unchanged).  However
`pause_time` may still be present in the resulting finished state, as the
counterexample shows. -/
theorem C3_done_entered_only_by_evaluate (t : CountdownTimer) (q x : ℤ) :
    (t.finished = false → ((t.compute_state q).2).finished = true →
      ((t.compute_state q).1).remaining = 0 ∧
      ((t.compute_state q).2).paused = true) ∧
    (t.set_duration x).finished = false ∧
    (t.start x).finished = false ∧
    t.reset.finished = false ∧
    (t.pause x).finished = t.finished ∧
    (t.resume x).finished = t.finished ∧
    ((t.add_time x).finished = true → t.finished = true) := by
  obtain ⟨d, st, et, p, pt, f⟩ := t
  refine ⟨?_, rfl, rfl, rfl, ?_, ?_, ?_⟩
  · intro hf hfin
    cases st <;> cases et <;> cases pt <;> cases p <;>
      simp only [CountdownTimer.compute_state] at hf hfin ⊢ <;> simp_all
  · simp only [CountdownTimer.pause]
    split <;> rfl
  · cases st <;> cases et <;> cases pt <;>
      simp only [CountdownTimer.resume] <;> split <;> rfl
  · intro h
    simp only [CountdownTimer.add_time] at h
    split at h
    · exact h
    · split at h <;> simp_all

theorem C3_witness :
    (((CountdownTimer.mk 5 (some 0) (some 5) false none false).compute_state
        10).1.remaining = 0) ∧
    (((CountdownTimer.mk 5 (some 0) (some 5) false none false).compute_state
        10).2.paused = true) :=
  (C3_done_entered_only_by_evaluate (CountdownTimer.mk 5 (some 0) (some 5)
    false none false) 10 0).1 rfl (by decide)

/-- C4 as stated is false: duration 5, `start` at 0, `pause` at 2 gives a
started timer; evaluating at 10 (which is at or after the end time 5)
returns the frozen remaining 3, not 0, and does not set `finished`. -/
theorem C4_counterexample :
    (((((CountdownTimer.init 0).set_duration 5).start 0).pause
        2).compute_state 10).1.remaining = 3 ∧
    (((((CountdownTimer.init 0).set_duration 5).start 0).pause
        2).compute_state 10).2.finished = false ∧
    (3 : ℤ) ≠ 0 := by decide

/-- Evaluating a started timer with no pause timestamp at or after its end
time: the snapshot reports remaining 0 and the state is marked finished and
paused while keeping its timestamps. -/
theorem compute_state_expired (d st et x : ℤ) (p f : Bool) (hx : et ≤ x) :
    ((CountdownTimer.mk d (some st) (some et) p none f).compute_state x).1.remaining = 0 ∧
    ((CountdownTimer.mk d (some st) (some et) p none f).compute_state x).2 =
      CountdownTimer.mk d (some st) (some et) true none true := by
  have h0 : et - x ≤ 0 := by omega
  simp [CountdownTimer.compute_state, if_pos h0]
  exact ⟨fun h => by omega, Or.inl hx, Or.inl hx⟩

/-- In a started, never-expiring-away state with no pause timestamp, every
`evaluate` in a run of consecutive evaluations at times that stay at or
after the end time reports remaining 0. -/
theorem evalSnapshots_remaining_zero (d st et : ℤ) (p f : Bool)
    (ts : List ℤ) (lo : ℤ) (hlo : et ≤ lo)
    (hchain : List.Chain (fun a b => a ≤ b) lo ts) :
    ∀ snap ∈ evalSnapshots (CountdownTimer.mk d (some st) (some et) p none f)
      ts, snap.remaining = 0 := by
  induction ts generalizing p f lo with
  | nil =>
      intro snap hsnap
      simp [evalSnapshots] at hsnap
  | cons x rest ih =>
      cases hchain with
      | cons hx hrest =>
          intro snap hsnap
          have hex : et ≤ x := le_trans hlo hx
          obtain ⟨h1, h2⟩ := compute_state_expired d st et x p f hex
          simp only [evalSnapshots, List.mem_cons] at hsnap
          rcases hsnap with h | h
          · rw [h]
            exact h1
          · rw [h2] at h
            exact ih true true x hex hrest snap h

/-- C4 amended: for a started timer whose remaining is not frozen by a pause
(`pause_time` absent), evaluating at or after the end time returns remaining
0 and sets `finished`; completion is then absorbing: every further
`evaluate` at non-decreasing query times (no intervening mutating
operation) keeps returning remaining 0. -/
theorem C4_completion_absorbing (d st et now : ℤ) (p f : Bool)
    (ts : List ℤ) (hnow : et ≤ now)
    (hchain : List.Chain (fun a b => a ≤ b) now ts) :
    ((CountdownTimer.mk d (some st) (some et) p none f).compute_state
      now).1.remaining = 0 ∧
    ((CountdownTimer.mk d (some st) (some et) p none f).compute_state
      now).2.finished = true ∧
    ∀ snap ∈ evalSnapshots (((CountdownTimer.mk d (some st) (some et) p none
      f).compute_state now).2) ts, snap.remaining = 0 := by
  obtain ⟨h1, h2⟩ := compute_state_expired d st et now p f hnow
  refine ⟨h1, ?_, ?_⟩
  · rw [h2]
  · rw [h2]
    exact evalSnapshots_remaining_zero d st et true true ts now hnow hchain

theorem C4_witness :
    ((CountdownTimer.mk 5 (some 0) (some 5) false none false).compute_state
      7).1.remaining = 0 ∧
    ((CountdownTimer.mk 5 (some 0) (some 5) false none false).compute_state
      7).2.finished = true ∧
    ∀ snap ∈ evalSnapshots (((CountdownTimer.mk 5 (some 0) (some 5) false
      none false).compute_state 7).2) [8, 9], snap.remaining = 0 :=
  C4_completion_absorbing 5 0 5 7 false false [8, 9] (by decide)
    (by norm_num [List.chain_cons])

/-- C7 as stated is false: duration 5, `start` at 0, querying at 10 (after
the deadline passed) reports remaining 0; after `add_time 3` the evaluation
at the same query time still reports 0, an increase of 0, not 3. -/
theorem C7_counterexample :
    ((((CountdownTimer.init 0).set_duration 5).start 0).compute_state
      10).1.remaining = 0 ∧
    (((((CountdownTimer.init 0).set_duration 5).start 0).add_time
        3).compute_state 10).1.remaining = 0 ∧
    ¬ ((0 : ℤ) = 0 + 3) := by decide

/-- C7 amended: for `s > 0`, on a started timer `add_time s` clears
`finished` and advances the end time by exactly `s`; the remaining reported
by the next `evaluate` at the same query time increases by exactly `s`
provided the deadline had not already passed at that query's effective now
(otherwise the pre-add remaining is clamped at 0 and the increase is
smaller).  On a never-started timer, `add_time s` instead increases the
configured duration by exactly `s`, and (for a non-negative configured
duration) the idle remaining shown by `evaluate` increases by exactly
`s`. -/
theorem C7_addTime_dual (d s q : ℤ) (hspos : 0 < s) :
    (∀ (st et : ℤ) (p f : Bool) (pt : Option ℤ),
      ((CountdownTimer.mk d (some st) (some et) p pt f).add_time
        s).finished = false ∧
      ((CountdownTimer.mk d (some st) (some et) p pt f).add_time
        s).end_time = some (et + s) ∧
      (((CountdownTimer.mk d (some st) (some et) p pt f).compute_state
          q).1.now ≤ et →
        (((CountdownTimer.mk d (some st) (some et) p pt f).add_time
            s).compute_state q).1.remaining =
          ((CountdownTimer.mk d (some st) (some et) p pt f).compute_state
            q).1.remaining + s)) ∧
    (∀ (et : Option ℤ) (p f : Bool) (pt : Option ℤ),
      ((CountdownTimer.mk d none et p pt f).add_time s).duration = d + s ∧
      (0 ≤ d →
        (((CountdownTimer.mk d none et p pt f).add_time s).compute_state
            q).1.remaining =
          ((CountdownTimer.mk d none et p pt f).compute_state
            q).1.remaining + s)) := by
  have hns : ¬ s ≤ 0 := by omega
  constructor
  · intro st et p f pt
    cases pt <;> cases p <;>
      simp only [CountdownTimer.add_time, if_neg hns,
        CountdownTimer.compute_state] <;>
      norm_num <;>
      (intro h; split <;> split <;> omega)
  · intro et p f pt
    simp only [CountdownTimer.add_time, if_neg hns,
      CountdownTimer.compute_state]
    cases et <;> norm_num <;> (intro h; omega)

theorem C7_witness :
    ((CountdownTimer.mk 5 (some 0) (some 5) false none false).add_time
      3).finished = false ∧
    ((CountdownTimer.mk 5 (some 0) (some 5) false none false).add_time
      3).end_time = some (5 + 3) ∧
    (((CountdownTimer.mk 5 (some 0) (some 5) false none
        false).compute_state 2).1.now ≤ 5 →
      (((CountdownTimer.mk 5 (some 0) (some 5) false none false).add_time
          3).compute_state 2).1.remaining =
        ((CountdownTimer.mk 5 (some 0) (some 5) false none
          false).compute_state 2).1.remaining + 3) :=
  (C7_addTime_dual 5 3 2 (by decide)).1 0 5 false false none

/-- The `pause_time` invariant is preserved by every single operation. -/
theorem pause_time_inv_apply (op : TimerOp) (t : CountdownTimer)
    (ht : t.pause_time.isSome = true →
      t.paused = true ∧ t.start_time.isSome = true) :
    (op.apply t).pause_time.isSome = true →
      (op.apply t).paused = true ∧ (op.apply t).start_time.isSome = true := by
  obtain ⟨d, st, et, p, pt, f⟩ := t
  cases op <;>
    cases st <;> cases et <;> cases pt <;> cases p <;>
      simp_all [TimerOp.apply, CountdownTimer.set_duration,
        CountdownTimer.reset, CountdownTimer.start, CountdownTimer.pause,
        CountdownTimer.resume, CountdownTimer.add_time,
        CountdownTimer.compute_state] <;>
      split <;> simp_all

/-- The `pause_time` invariant is preserved by any run of operations. -/
theorem pause_time_inv_runOps (ops : List TimerOp) :
    ∀ (t : CountdownTimer),
      (t.pause_time.isSome = true →
        t.paused = true ∧ t.start_time.isSome = true) →
      (runOps t ops).pause_time.isSome = true →
      (runOps t ops).paused = true ∧
      (runOps t ops).start_time.isSome = true := by
  induction ops with
  | nil => intro t ht; exact ht
  | cons op rest ih =>
      intro t ht
      exact ih (op.apply t) (pause_time_inv_apply op t ht)

/-- C9: in every state reachable from a freshly constructed timer by any
sequence of operations (including `evaluate`), a present `pause_time`
implies `paused` is true and `start_time` is present. -/
theorem C9_pause_time_invariant (d : ℤ) (ops : List TimerOp)
    (h : (runOps (CountdownTimer.init d) ops).pause_time.isSome = true) :
    (runOps (CountdownTimer.init d) ops).paused = true ∧
    (runOps (CountdownTimer.init d) ops).start_time.isSome = true := by
  refine pause_time_inv_runOps ops (CountdownTimer.init d) ?_ h
  intro hc
  simp [CountdownTimer.init] at hc

theorem C9_witness :
    (runOps (CountdownTimer.init 0) [TimerOp.setDuration 5,
      TimerOp.startOp 0, TimerOp.pauseOp 3]).paused = true ∧
    (runOps (CountdownTimer.init 0) [TimerOp.setDuration 5,
      TimerOp.startOp 0, TimerOp.pauseOp 3]).start_time.isSome = true :=
  C9_pause_time_invariant 0 [TimerOp.setDuration 5, TimerOp.startOp 0,
    TimerOp.pauseOp 3] (by decide)

/-- C10: `evaluate` never clears `finished`; `pause` and `resume` never
change it and `add_time` with non-positive seconds leaves it unchanged, so
`finished` goes from true to false only via `start`, `reset`,
`set_duration`, or `add_time` with positive seconds.  Consequently, on the
Done state reached by letting a 5-second timer expire, evaluating with the
query clock moved backwards to 3 returns a positive remaining (2) while
`has_finished` still returns true and `is_running` still returns false. -/
theorem C10_finished_cleared_only_by_mutators (t : CountdownTimer)
    (q x : ℤ) :
    (t.finished = true → ((t.compute_state q).2).finished = true) ∧
    (t.pause x).finished = t.finished ∧
    (t.resume x).finished = t.finished ∧
    (x ≤ 0 → (t.add_time x).finished = t.finished) ∧
    (((((((CountdownTimer.init 0).set_duration 5).start 0).compute_state
        10).2).compute_state 3).1.remaining = 2 ∧
      ((((((CountdownTimer.init 0).set_duration 5).start 0).compute_state
        10).2).compute_state 3).2.has_finished = true ∧
      ((((((CountdownTimer.init 0).set_duration 5).start 0).compute_state
        10).2).compute_state 3).2.is_running = false) := by
  obtain ⟨dd, st, et, p, pt, f⟩ := t
  refine ⟨?_, ?_, ?_, ?_, by decide⟩
  · intro hf
    cases st <;> cases et <;> cases pt <;> cases p <;>
      simp_all [CountdownTimer.compute_state]
  · simp only [CountdownTimer.pause]
    split <;> rfl
  · cases st <;> cases et <;> cases pt <;>
      simp only [CountdownTimer.resume] <;> split <;> rfl
  · intro hx
    simp only [CountdownTimer.add_time, if_pos hx]

theorem C10_witness :
    ((CountdownTimer.mk 5 (some 0) (some 5) true none true).compute_state
      7).2.finished = true :=
  (C10_finished_cleared_only_by_mutators (CountdownTimer.mk 5 (some 0)
    (some 5) true none true) 7 0).1 rfl
